import Mathlib

/-!
Shallow embedding of the data-drop-inspector core (src/inspector/cleaning.py,
src/inspector/profiling.py, src/inspector/rules.py and the report assembly in
src/app.py), together with theorems settling the frozen claims about it.

Modelling conventions:
* A pandas DataFrame is a `Table`: column names, per-column dtypes, and a list
  of rows, each row a list of cells.  A cell is `Option Val`; `none` models a
  null (NaN / pd.NA) and `Val` is the tagged value that a Python object cell
  can hold.
* Python floats are modelled as exact rationals (`ℚ`).  `NaN` results (the
  mean of an empty series) are modelled with `Option ℚ`, `none` standing for
  NaN; Python comparisons with NaN are false, which `optLe`/`optGe` mirror.
* `Series.sample(n, random_state=42)` is a deterministic selection of `n`
  positions fixed by the seed.  The exact permutation drawn by numpy is
  irrelevant to every verified property (determinism, caps, seed sharing), so
  `sampleSeeded` realises it as a seed-determined rotation followed by `take`.
* Library helpers that the repository calls (`pd.to_datetime` per value,
  `pd.to_numeric` per value, `str()` rendering of floats) are modelled by
  small concrete parsers/printers marked in their doc comments; the claims
  under verification do not depend on their exact value-level behaviour.
-/

/-- Whitespace predicate used to model Python `str.strip`. -/
def wsChar (c : Char) : Bool := c.isWhitespace

/-- Remove leading whitespace, as a list operation. -/
def dropWs (l : List Char) : List Char := l.dropWhile wsChar

/-- Characters of a string after stripping whitespace at both ends:
first the trailing end (through a reverse), then the leading end. -/
def stripChars (l : List Char) : List Char := dropWs ((dropWs l.reverse).reverse)

/-- Model of Python `str.strip()` (ASCII whitespace). -/
def pyStrip (s : String) : String := ⟨stripChars s.data⟩

/-- Decide whether `needle` is a prefix of `hay` (plain Boolean recursion). -/
def lPrefixOf : List Char → List Char → Bool
  | [], _ => true
  | _ :: _, [] => false
  | a :: as, b :: bs => a = b && lPrefixOf as bs

/-- Does the predicate hold of some suffix of the list? -/
def anyTail (p : List Char → Bool) : List Char → Bool
  | [] => p []
  | l@(_ :: rest) => p l || anyTail p rest

/-- Substring test, modelling Python `in` on strings. -/
def subList (needle : List Char) (hay : List Char) : Bool :=
  anyTail (lPrefixOf needle) hay

/-- Suffix test, modelling Python `str.endswith`. -/
def endsList (needle : List Char) (hay : List Char) : Bool :=
  lPrefixOf needle.reverse hay.reverse

/-- Lower-cased, stripped characters of a column name, modelling
`col_name.strip().lower()`. -/
def lowerOf (s : String) : List Char := (stripChars s.data).map Char.toLower

/-- Count of distinct elements, with an accumulator of already-seen values
(models `len(set(...))` / `Series.nunique`). -/
def countDistinctAux [DecidableEq α] (seen : List α) : List α → ℕ
  | [] => 0
  | x :: xs =>
    if x ∈ seen then countDistinctAux seen xs
    else countDistinctAux (x :: seen) xs + 1

/-- Count of distinct elements of a list. -/
def countDistinct [DecidableEq α] (l : List α) : ℕ := countDistinctAux [] l

/-- Model of `Series.sample(n, random_state=seed)`: a deterministic selection
of `n` of the values, fixed entirely by the seed and the length.  The exact
permutation numpy derives from the seed is irrelevant to the verified
properties, so the selection is realised as a seed-determined rotation
followed by a prefix. -/
def sampleSeeded (seed n : ℕ) (xs : List α) : List α :=
  let k := seed % max xs.length 1
  ((xs.drop k) ++ (xs.take k)).take n

/-- The sampling expression shared by every detector,
`s.sample(min(cap, len(s)), random_state=42)`: the same algorithm and the
same fixed seed 42 at every call site; only the cap differs. -/
def detectorSample (cap : ℕ) (xs : List α) : List α :=
  sampleSeeded 42 (min cap xs.length) xs

/-- Tagged cell value: the Python object a non-null DataFrame cell holds
(int, float, str, bool, or a Timestamp). -/
inductive Val where
  | vInt : Int → Val
  | vFloat : ℚ → Val
  | vStr : String → Val
  | vBool : Bool → Val
  | vDate : Int → Val
deriving DecidableEq

/-- A cell: `none` models a null (NaN / pd.NA). -/
abbrev Cell := Option Val

/-- Column storage dtype, as pandas reports it. -/
inductive Dtype where
  | int64 | float64 | boolean | datetime64 | object | string
deriving DecidableEq

/-- Model of `pd.api.types.is_object_dtype(s) or pd.api.types.is_string_dtype(s)`. -/
def isTextLike : Dtype → Bool
  | Dtype.object => true
  | Dtype.string => true
  | _ => false

/-- Model of `pd.api.types.is_numeric_dtype` (numpy bool counts as numeric). -/
def isNumericDtype : Dtype → Bool
  | Dtype.int64 => true
  | Dtype.float64 => true
  | Dtype.boolean => true
  | _ => false

/-- The string pandas prints for a dtype (`str(s.dtype)`). -/
def dtypeName : Dtype → String
  | Dtype.int64 => "int64"
  | Dtype.float64 => "float64"
  | Dtype.boolean => "bool"
  | Dtype.datetime64 => "datetime64[ns]"
  | Dtype.object => "object"
  | Dtype.string => "string"

/-- A loaded table: ordered column names, their dtypes, and the rows.
Well-formed tables have every row of length `names.length` and
`dtypes.length = names.length`. -/
structure Table where
  names : List String
  dtypes : List Dtype
  rows : List (List Cell)
deriving DecidableEq

/-- Model of Python `str(x)` on a cell value.  The rendering of floats and
timestamps is a deterministic model; no verified property depends on the
exact digits. -/
def showQ (x : ℚ) : String :=
  if x.den = 1 then toString x.num ++ ".0"
  else toString x.num ++ "/" ++ toString x.den

/-- Model of Python `str(x)` for a tagged value. -/
def valToString : Val → String
  | Val.vInt n => toString n
  | Val.vFloat x => showQ x
  | Val.vStr s => s
  | Val.vBool b => if b then "True" else "False"
  | Val.vDate n => toString n

/-- The replacement dictionary of `safe_clean_dataframe`
(`{"": NA, "na": NA, "n/a": NA, "null": NA, "none": NA}`). -/
def naTokens : List String := ["", "na", "n/a", "null", "none"]

/-- Per-cell effect of the string-column pipeline in `safe_clean_dataframe`:
`astype("string")`, `.str.strip()`, then the exact-match replacement of the
na tokens by `pd.NA`.  Nulls stay null. -/
def cleanCell : Cell → Cell
  | none => none
  | some v =>
    let s := pyStrip (valToString v)
    if s ∈ naTokens then none else some (Val.vStr s)

/-- Apply `cleanCell` at the positions whose dtype is object- or string-typed,
leaving other columns untouched (the loop over `out.columns` in
`safe_clean_dataframe`).  Positions beyond the dtype list are treated as
object-typed. -/
def cleanCells : List Dtype → List Cell → List Cell
  | _, [] => []
  | [], c :: cs => cleanCell c :: cleanCells [] cs
  | d :: ds, c :: cs =>
    (if isTextLike d then cleanCell c else c) :: cleanCells ds cs

/-- Dtype after the cleaning loop: text-like columns become `string`
(`astype("string")`), others keep their dtype. -/
def cleanDtype (d : Dtype) : Dtype := if isTextLike d then Dtype.string else d

/-- Mask of rows that are exact duplicates of an earlier row, with the list of
earlier rows as accumulator (models `DataFrame.duplicated()`, which treats
nulls as equal). -/
def duplicatedAux (seen : List (List Cell)) : List (List Cell) → List Bool
  | [] => []
  | r :: rs => decide (r ∈ seen) :: duplicatedAux (r :: seen) rs

/-- Model of `DataFrame.duplicated()`. -/
def duplicatedMask (rows : List (List Cell)) : List Bool := duplicatedAux [] rows

/-- Drop rows equal to an earlier row, keeping first occurrences (models
`DataFrame.drop_duplicates()`). -/
def dropDupAux (seen : List (List Cell)) : List (List Cell) → List (List Cell)
  | [] => []
  | r :: rs => if r ∈ seen then dropDupAux seen rs else r :: dropDupAux (r :: seen) rs

/-- Model of `DataFrame.drop_duplicates()`. -/
def dropDupRows (rows : List (List Cell)) : List (List Cell) := dropDupAux [] rows

/-- Embedding of `safe_clean_dataframe(df, drop_exact_duplicates)` from
src/inspector/cleaning.py: trim column names, strip string cells and replace
the na tokens in object/string columns, then optionally drop exact duplicate
rows. -/
def safe_clean_dataframe (t : Table) (drop_exact_duplicates : Bool) : Table :=
  let names := t.names.map pyStrip
  let dtypes := t.dtypes.map cleanDtype
  let base := t.rows.map (cleanCells t.dtypes)
  { names := names
    dtypes := dtypes
    rows := if drop_exact_duplicates then dropDupRows base else base }


/-- Values of the non-null cells of a column (models `Series.dropna()`). -/
def nonNullVals (cells : List Cell) : List Val := cells.filterMap id

/-- Count of null cells of a column. -/
def countNulls (cells : List Cell) : ℕ := cells.countP (fun c => c.isNone)

/-- Mean of a boolean series: `none` models the NaN that pandas returns for
the mean of an empty series. -/
def seriesMeanB (bs : List Bool) : Option ℚ :=
  if bs.length = 0 then none else some ((bs.count true : ℚ) / (bs.length : ℚ))

/-- Null rate of a column, `s.isna().mean()`: NaN (`none`) on a zero-row
column. -/
def nullRateOf (cells : List Cell) : Option ℚ :=
  seriesMeanB (cells.map Option.isNone)

/-- Round an exact rational to the nearest integer, ties to even — the
rounding Python `round` applies. -/
def rne (x : ℚ) : ℤ :=
  if x - (⌊x⌋ : ℚ) < 1/2 then ⌊x⌋
  else if 1/2 < x - (⌊x⌋ : ℚ) then ⌊x⌋ + 1
  else if ⌊x⌋ % 2 = 0 then ⌊x⌋ else ⌊x⌋ + 1

/-- Model of Python `round(x, n)` over exact rationals. -/
def pyRound (n : ℕ) (x : ℚ) : ℚ := (rne (x * 10 ^ n) : ℚ) / 10 ^ n

/-- Order a value for `Series.min`/`Series.max` on numeric or datetime
columns (a deterministic model; only used on such columns). -/
def ratOfVal : Val → ℚ
  | Val.vInt n => (n : ℚ)
  | Val.vFloat x => x
  | Val.vBool b => if b then 1 else 0
  | Val.vDate n => (n : ℚ)
  | Val.vStr _ => 0

/-- Model of `Series.min(skipna=True)` over the non-null values; `none`
models both the initial `""` and the NaN of an all-null column. -/
def seriesMin (vs : List Val) : Option Val :=
  vs.foldl
    (fun acc v =>
      match acc with
      | none => some v
      | some w => if ratOfVal v < ratOfVal w then some v else some w)
    none

/-- Model of `Series.max(skipna=True)` over the non-null values. -/
def seriesMax (vs : List Val) : Option Val :=
  vs.foldl
    (fun acc v =>
      match acc with
      | none => some v
      | some w => if ratOfVal w < ratOfVal v then some v else some w)
    none

/-- One row of the profiling table built by `build_column_profile`.
`nullPct` is the `null_%` field (`round(null_rate * 100, 2)`), with `none`
modelling NaN; `cardinality` is already rounded to 3 decimals. -/
structure ProfileRow where
  column : String
  dtype : String
  nullPct : Option ℚ
  unique_values : ℕ
  cardinality : ℚ
  min : Option Val
  max : Option Val
deriving DecidableEq

/-- Profile of one column, as `build_column_profile` computes it
(src/inspector/profiling.py): null rate from `isna().mean()`, distinct
non-null count, cardinality guarded against zero rows and rounded to 3
decimals, min/max only for numeric or datetime columns. -/
def profileColumn (name : String) (dt : Dtype) (cells : List Cell) : ProfileRow :=
  let null_rate := nullRateOf cells
  let unique_count := countDistinct (nonNullVals cells)
  let cardinality : ℚ :=
    if cells.length = 0 then 0 else (unique_count : ℚ) / (cells.length : ℚ)
  { column := name
    dtype := dtypeName dt
    nullPct := null_rate.map (fun r => pyRound 2 (100 * r))
    unique_values := unique_count
    cardinality := pyRound 3 cardinality
    min :=
      if isNumericDtype dt || dt = Dtype.datetime64 then seriesMin (nonNullVals cells)
      else none
    max :=
      if isNumericDtype dt || dt = Dtype.datetime64 then seriesMax (nonNullVals cells)
      else none }

/-- The columns of a table as (name, dtype, cells) triples, in column order
(models iterating `df.columns` and reading `df[col]`; columns are addressed
positionally, as for unique column names). -/
def columnsOf (t : Table) : List (String × Dtype × List Cell) :=
  (List.range t.names.length).map
    (fun j =>
      (t.names.getD j "", t.dtypes.getD j Dtype.object,
        t.rows.map (fun r => r.getD j none)))

/-- Embedding of `build_column_profile(df)` from src/inspector/profiling.py. -/
def build_column_profile (t : Table) : List ProfileRow :=
  (columnsOf t).map (fun c => profileColumn c.1 c.2.1 c.2.2)


/-- A quality issue as the rule engine emits it. -/
structure Issue where
  severity : String
  title : String
  details : String
  suggestion : String
deriving DecidableEq

/-- Python comparison `x <= b` where `x` may be NaN (`none`): NaN compares
false. -/
def optLe (o : Option ℚ) (b : ℚ) : Bool :=
  match o with
  | none => false
  | some x => decide (x ≤ b)

/-- Python comparison `x >= b` where `x` may be NaN (`none`): NaN compares
false. -/
def optGe (o : Option ℚ) (b : ℚ) : Bool :=
  match o with
  | none => false
  | some x => decide (b ≤ x)

/-- Local-part characters of the email regex `[A-Za-z0-9._%+\-]`. -/
def isLocalChar (c : Char) : Bool :=
  c.isAlpha || c.isDigit || decide (c ∈ ['.', '_', '%', '+', '-'])

/-- Domain characters of the email regex `[A-Za-z0-9.\-]`. -/
def isDomainChar (c : Char) : Bool :=
  c.isAlpha || c.isDigit || c = '.' || c = '-'

/-- Full-string match of `EMAIL_REGEX`
(`^[A-Za-z0-9._%+\-]+@[A-Za-z0-9.\-]+\.[A-Za-z]{2,}$`), decided directly: a
matching string splits as local part, `@`, domain part, and a final `.` with
a 2+-letter TLD; since the TLD is all-alphabetic and anchored at the end, the
splitting dot is necessarily the last dot. -/
def emailMatch (s : String) : Bool :=
  let cs := s.data
  let loc := cs.takeWhile (fun c => c ≠ '@')
  match cs.drop loc.length with
  | '@' :: dom =>
    let revTld := dom.reverse.takeWhile Char.isAlpha
    (decide ¬loc.isEmpty) && loc.all isLocalChar &&
      (match dom.reverse.drop revTld.length with
       | '.' :: revRest =>
         decide (2 ≤ revTld.length) && decide ¬revRest.isEmpty &&
           revRest.all isDomainChar
       | _ => false)
  | _ => false

/-- Embedding of `looks_like_email_column` from src/inspector/rules.py. -/
def looks_like_email_column (col_name : String) : Bool :=
  let name := lowerOf col_name
  subList "email".data name || endsList "_mail".data name || endsList "mail".data name

/-- Embedding of `looks_like_date_column` from src/inspector/rules.py. -/
def looks_like_date_column (col_name : String) : Bool :=
  let name := lowerOf col_name
  ["date", "fecha", "datetime", "timestamp", "created", "updated"].any
    (fun k => subList k.data name)

/-- Embedding of `looks_like_numeric_column` from src/inspector/rules.py. -/
def looks_like_numeric_column (col_name : String) : Bool :=
  let name := lowerOf col_name
  ["price", "amount", "importe", "total", "qty", "quantity", "units",
    "discount", "pct", "percent", "%"].any (fun k => subList k.data name)

/-- Python `type(x).__name__` for a cell value, as `infer_mixed_types`
inspects it. -/
def kindName : Val → String
  | Val.vInt _ => "int"
  | Val.vFloat _ => "float"
  | Val.vStr _ => "str"
  | Val.vBool _ => "bool"
  | Val.vDate _ => "Timestamp"

/-- Embedding of `infer_mixed_types(series, sample_size)` from
src/inspector/rules.py: drop nulls, sample `min(sample_size, len)` values
with the fixed seed 42, and test whether more than one Python type name
occurs.  `detect_issues` calls it with the default `sample_size = 200`. -/
def infer_mixed_types (cells : List Cell) (sample_size : ℕ) : Bool :=
  let s := nonNullVals cells
  if s.isEmpty then false
  else
    let sample := detectorSample sample_size s
    decide (1 < countDistinct (sample.map kindName))

/-- The duplicate-row count computed in `detect_issues`
(`int(df.duplicated().sum())`, src/inspector/rules.py line 53). -/
def dup_count_rules (t : Table) : ℕ := (duplicatedMask t.rows).count true

/-- Primary-key filter of `detect_issues`:
`r["null_%"] <= 1.0 and r["cardinality"] >= 0.98 and r["unique_values"] > 1`,
evaluated on the (rounded) profile fields. -/
def pkCond (r : ProfileRow) : Bool :=
  optLe r.nullPct 1 && decide ((98 : ℚ)/100 ≤ r.cardinality) &&
    decide (1 < r.unique_values)

/-- High-missingness filter of `detect_issues`: `r["null_%"] >= 20.0`,
evaluated on the rounded `null_%` profile field. -/
def highCond (r : ProfileRow) : Bool := optGe r.nullPct 20

/-- Insert into a descending-by-rate list, keeping earlier elements first on
ties (Python `sorted(..., key=lambda x: -x[1])` is stable). -/
def insertDesc (x : String × ℚ) : List (String × ℚ) → List (String × ℚ)
  | [] => [x]
  | y :: ys => if y.2 < x.2 then x :: y :: ys else y :: insertDesc x ys

/-- Stable sort by descending rate. -/
def sortDesc : List (String × ℚ) → List (String × ℚ)
  | [] => []
  | x :: xs => insertDesc x (sortDesc xs)

/-- Primary-key issue block of `detect_issues`. -/
def pkIssuesOf (profile_rows : List ProfileRow) : List Issue :=
  let pk_candidates := (profile_rows.filter pkCond).map (fun r => r.column)
  if pk_candidates.isEmpty then []
  else
    [{ severity := "info"
       title := "Potential primary key columns detected"
       details := "Almost-unique with low nulls: " ++ String.intercalate ", " pk_candidates
       suggestion := "Use one as a primary key (or combine multiple columns if needed)." }]

/-- Duplicate-rows issue block of `detect_issues`. -/
def dupIssuesOf (t : Table) : List Issue :=
  let dup_count := dup_count_rules t
  if 0 < dup_count then
    [{ severity := "warning"
       title := "Duplicate rows detected"
       details := "Found " ++ toString dup_count ++ " exact duplicate rows."
       suggestion := "Inspect duplicates; deduplicate or define a reliable key strategy." }]
  else []

/-- High-missingness issue block of `detect_issues`. -/
def highIssuesOf (profile_rows : List ProfileRow) : List Issue :=
  let high_null_cols :=
    (profile_rows.filter highCond).map (fun r => (r.column, r.nullPct.getD 0))
  if high_null_cols.isEmpty then []
  else
    let formatted :=
      String.intercalate ", "
        ((sortDesc high_null_cols).map (fun p => p.1 ++ " (" ++ showQ p.2 ++ "%)"))
    [{ severity := "warning"
       title := "High missing values"
       details := "Columns with ≥20% nulls: " ++ formatted
       suggestion := "Decide whether to impute, drop, or treat as optional. Validate upstream source if unexpected." }]

/-- Mixed-types issue block of `detect_issues` (the per-column call is
wrapped in try/except in the source; the pure embedding of the computation
cannot fail — `detect_issues_flow` below models the handler itself). -/
def mixedIssuesOf (t : Table) : List Issue :=
  let mixed_cols :=
    (columnsOf t).filterMap
      (fun c => if infer_mixed_types c.2.2 200 then some c.1 else none)
  if mixed_cols.isEmpty then []
  else
    [{ severity := "critical"
       title := "Mixed types detected"
       details := "Columns likely contain mixed Python types: " ++ String.intercalate ", " mixed_cols
       suggestion := "Standardize formats and cast types. Mixed-type columns frequently break pipelines." }]

/-- Per-column body of `detect_email_issues`: name heuristic, dropna and
empty guard, `astype("string").str.strip()`, the seeded 2000-value sample,
and the anchored regex match with the 5% threshold. -/
def emailColBody (c : String × Dtype × List Cell) : List Issue :=
  let col := c.1
  if ¬looks_like_email_column col then []
  else
    let s := nonNullVals c.2.2
    if s.isEmpty then []
    else
      let s_str := s.map (fun v => pyStrip (valToString v))
      let sample := detectorSample 2000 s_str
      let invalid_rate : ℚ :=
        ((sample.countP (fun x => ¬emailMatch x)) : ℚ) / (sample.length : ℚ)
      if (5 : ℚ)/100 ≤ invalid_rate then
        [{ severity := "warning"
           title := "Invalid emails in `" ++ col ++ "`"
           details := "~" ++ showQ (pyRound 2 (invalid_rate * 100)) ++ "% of sampled values look invalid."
           suggestion := "Trim whitespace and validate formatting upstream. Consider rejecting invalid addresses at ingestion." }]
      else []

/-- Embedding of `detect_email_issues(df)` from src/inspector/rules.py. -/
def detect_email_issues (t : Table) : List Issue :=
  (columnsOf t).flatMap emailColBody

/-- Modelled library function: `pd.to_datetime(x, errors="coerce",
dayfirst=True)` applied to one string, as a total parser returning `none`
for the NaT outcome.  It accepts ISO `YYYY-MM-DD` and day-first `DD/MM/YYYY`
shapes; the verified claims do not depend on the exact set of accepted
shapes, only on this being a fixed deterministic function. -/
def pdToDatetime (s : String) : Option Int :=
  let digitsToNat? : List Char → Option ℕ := fun cs =>
    if ¬cs.isEmpty ∧ cs.all Char.isDigit then
      some (cs.foldl (fun a c => 10 * a + (c.toNat - 48)) 0)
    else none
  let assemble : ℕ → ℕ → ℕ → Option Int := fun y m d =>
    if 1 ≤ m ∧ m ≤ 12 ∧ 1 ≤ d ∧ d ≤ 31 then
      some ((10000 * y + 100 * m + d : ℕ) : Int)
    else none
  match (s.splitOn "-").map String.data with
  | [y, m, d] =>
    match digitsToNat? y, digitsToNat? m, digitsToNat? d with
    | some yn, some mn, some dn => assemble yn mn dn
    | _, _, _ => none
  | _ =>
    match (s.splitOn "/").map String.data with
    | [d, m, y] =>
      match digitsToNat? y, digitsToNat? m, digitsToNat? d with
      | some yn, some mn, some dn => assemble yn mn dn
      | _, _, _ => none
    | _ => none

/-- Per-column body of `detect_date_parse_issues`: name heuristic, dropna
and empty guard, skip of already-datetime columns, the seeded 2000-value
sample, the separator heuristic (≥40% date-like) and the parse-failure
threshold (≥20%). -/
def dateColBody (c : String × Dtype × List Cell) : List Issue :=
  let col := c.1
  if ¬looks_like_date_column col then []
  else
    let s := nonNullVals c.2.2
    if s.isEmpty then []
    else if c.2.1 = Dtype.datetime64 then []
    else
      let s_str := s.map (fun v => pyStrip (valToString v))
      let sample := detectorSample 2000 s_str
      let fail_rate : ℚ :=
        ((sample.countP (fun x => (pdToDatetime x).isNone)) : ℚ) / (sample.length : ℚ)
      let date_like : ℚ :=
        ((sample.countP
            (fun x => x.data.any (fun ch => decide (ch ∈ ['-', '/', ':', '.'])))) : ℚ) /
          (sample.length : ℚ)
      if (4 : ℚ)/10 ≤ date_like ∧ (2 : ℚ)/10 ≤ fail_rate then
        [{ severity := "warning"
           title := "Date parsing issues in `" ++ col ++ "`"
           details := "~" ++ showQ (pyRound 2 (fail_rate * 100)) ++ "% of sampled values failed parsing."
           suggestion := "Standardize dates (ISO 8601). Avoid mixing formats and ensure consistent timezone handling." }]
      else []

/-- Embedding of `detect_date_parse_issues(df)` from src/inspector/rules.py. -/
def detect_date_parse_issues (t : Table) : List Issue :=
  (columnsOf t).flatMap dateColBody

/-- Modelled library function: `pd.to_numeric(x, errors="coerce")` applied
to one already-cleaned string: optional sign, digits, optional fractional
part.  The verified claims depend only on this being a fixed deterministic
total function. -/
def pdToNumeric (s : String) : Option ℚ :=
  let natOfDigits : List Char → ℕ :=
    fun cs => cs.foldl (fun a c => 10 * a + (c.toNat - 48)) 0
  match s.data with
  | [] => none
  | cs =>
    let sgn : ℚ × List Char :=
      match cs with
      | '-' :: r => (-1, r)
      | '+' :: r => (1, r)
      | _ => (1, cs)
    let ip := sgn.2.takeWhile Char.isDigit
    match sgn.2.drop ip.length with
    | [] => if ip.isEmpty then none else some (sgn.1 * (natOfDigits ip : ℚ))
    | '.' :: fp =>
      if fp.all Char.isDigit ∧ (¬ip.isEmpty ∨ ¬fp.isEmpty) then
        some (sgn.1 * ((natOfDigits ip : ℚ) + (natOfDigits fp : ℚ) / 10 ^ fp.length))
      else none
    | _ => none

/-- Search for the EU grouped-thousands shape `\d{1,3}(\.\d{3})+(,\d{1,2})?$`
anchored at the current position and running to the end of the string: one
or more `.ddd` groups after a leading digit, optionally a decimal-comma
tail.  (For `re.search` with `$`, a match with 2–3 leading digits contains
one starting at its last leading digit, so one leading digit suffices.) -/
def euGroupsFrom : List Char → Bool
  | '.' :: a :: b :: c :: rest =>
    a.isDigit && b.isDigit && c.isDigit &&
      (euGroupsFrom rest ||
        (match rest with
         | [] => true
         | ',' :: ds => (ds.length = 1 || ds.length = 2) && ds.all Char.isDigit
         | _ => false))
  | _ => false

/-- Position-anchored head of the EU grouped-thousands search. -/
def euThousandsHead : List Char → Bool
  | c :: rest => c.isDigit && euGroupsFrom rest
  | [] => false

/-- Model of `Series.str.contains(r"\d{1,3}(\.\d{3})+(,\d{1,2})?$")` for one
string: some suffix position starts a match running to the end. -/
def euThousandsShape (s : String) : Bool := anyTail euThousandsHead s.data

/-- Model of `Series.str.contains(r"\d+,\d{1,2}$")` for one string: a digit,
a comma, then one or two digits ending the string (a longer digit run
contains this match at its last digit). -/
def euDecimalCommaShape (s : String) : Bool :=
  anyTail
    (fun l =>
      match l with
      | c :: ',' :: rest =>
        c.isDigit && (rest.length = 1 || rest.length = 2) && rest.all Char.isDigit
      | _ => false)
    s.data

/-- The currency symbols stripped by `detect_numeric_as_text_issues`. -/
def currencySymbols : List Char := ['€', '$', '£']

/-- The per-value cleanup of `detect_numeric_as_text_issues`: remove
currency symbols, percent signs, spaces and dots, then turn the decimal
comma into a dot (character-wise, matching the chained `str.replace`
calls). -/
def cleanNumericStr (s : String) : String :=
  ⟨(s.data.filter
      (fun c => ¬decide (c ∈ currencySymbols) && c ≠ '%' && c ≠ ' ' && c ≠ '.')).map
      (fun c => if c = ',' then '.' else c)⟩

/-- Fraction of list elements satisfying a predicate (`Series.mean()` over a
boolean mask; callers guard against the empty case). -/
def fracP (p : α → Bool) (xs : List α) : ℚ := ((xs.countP p) : ℚ) / (xs.length : ℚ)

/-- Per-column body of `detect_numeric_as_text_issues`: name heuristic,
dropna and empty guard, skip of already-numeric columns, the seeded
2000-value sample, the currency/percent/EU hints and the ≥60% parse-success
threshold. -/
def numericColBody (c : String × Dtype × List Cell) : List Issue :=
  let col := c.1
  if ¬looks_like_numeric_column col then []
  else
    let s := nonNullVals c.2.2
    if s.isEmpty then []
    else if isNumericDtype c.2.1 then []
    else
      let s_str := s.map (fun v => pyStrip (valToString v))
      let sample := detectorSample 2000 s_str
      let has_currency :=
        currencySymbols.any
          (fun sym => decide ((5 : ℚ)/100 < fracP (fun x => x.data.any (fun ch => ch = sym)) sample))
      let has_percent :=
        decide ((5 : ℚ)/100 < fracP (fun x => x.data.any (fun ch => ch = '%')) sample)
      let has_eu_number :=
        decide ((1 : ℚ)/10 < fracP euThousandsShape sample) ||
          decide ((1 : ℚ)/10 < fracP euDecimalCommaShape sample)
      let cleaned := sample.map cleanNumericStr
      let success : ℚ := fracP (fun x => (pdToNumeric x).isSome) cleaned
      if (6 : ℚ)/10 ≤ success ∧ (has_currency || has_percent || has_eu_number) then
        let hints :=
          (if has_currency then ["currency symbols"] else []) ++
            (if has_percent then ["percent signs"] else []) ++
              (if has_eu_number then ["EU number formatting"] else [])
        [{ severity := "warning"
           title := "Numeric-as-text in `" ++ col ++ "`"
           details := "Detected " ++ String.intercalate ", " hints ++ ". ~" ++
             showQ (pyRound 2 (success * 100)) ++ "% could be parsed after cleaning."
           suggestion := "Normalize symbols/separators and cast to numeric types to avoid downstream bugs." }]
      else []

/-- Embedding of `detect_numeric_as_text_issues(df)` from
src/inspector/rules.py. -/
def detect_numeric_as_text_issues (t : Table) : List Issue :=
  (columnsOf t).flatMap numericColBody

/-- Embedding of `detect_issues(df, profile_rows)` from
src/inspector/rules.py: the issue blocks in source emission order. -/
def detect_issues (t : Table) (profile_rows : List ProfileRow) : List Issue :=
  pkIssuesOf profile_rows ++ dupIssuesOf t ++ highIssuesOf profile_rows ++
    mixedIssuesOf t ++ detect_email_issues t ++ detect_date_parse_issues t ++
      detect_numeric_as_text_issues t

/-- Scan of the mixed-types loop in `detect_issues` with the per-column
computation abstracted as a fallible function: the source wraps
`infer_mixed_types(df[col])` in `try/except Exception: pass`, so a failing
column is skipped and the scan continues. -/
def mixedScan (mixedCheck : List Cell → Except String Bool) :
    List (String × Dtype × List Cell) → List String
  | [] => []
  | c :: rest =>
    match mixedCheck c.2.2 with
    | Except.ok true => c.1 :: mixedScan mixedCheck rest
    | Except.ok false => mixedScan mixedCheck rest
    | Except.error _ => mixedScan mixedCheck rest

/-- Scan of a per-column detector loop with no exception handler
(`detect_email_issues`, `detect_date_parse_issues`,
`detect_numeric_as_text_issues`): a failing column propagates the error and
aborts the whole call. -/
def perColScan (check : String × Dtype × List Cell → Except String (List Issue)) :
    List (String × Dtype × List Cell) → Except String (List Issue)
  | [] => Except.ok []
  | c :: rest =>
    match check c with
    | Except.error e => Except.error e
    | Except.ok here =>
      match perColScan check rest with
      | Except.error e => Except.error e
      | Except.ok there => Except.ok (here ++ there)

/-- Mixed-types issue block over an abstract per-column computation. -/
def mixedIssuesOfScan (mixedCheck : List Cell → Except String Bool) (t : Table) :
    List Issue :=
  let mixed_cols := mixedScan mixedCheck (columnsOf t)
  if mixed_cols.isEmpty then []
  else
    [{ severity := "critical"
       title := "Mixed types detected"
       details := "Columns likely contain mixed Python types: " ++ String.intercalate ", " mixed_cols
       suggestion := "Standardize formats and cast types. Mixed-type columns frequently break pipelines." }]

/-- Control-flow skeleton of `detect_issues` with every per-column detector
computation abstracted as a fallible function (Python exceptions modelled as
`Except` values).  The structure mirrors the source exactly: the primary-key,
duplicate-row and high-missingness blocks are loop-free, the mixed-types loop
carries the only `try/except`, and the email/date/numeric loops propagate
any per-column error. -/
def detect_issues_flow (mixedCheck : List Cell → Except String Bool)
    (emailCheck dateCheck numericCheck :
      String × Dtype × List Cell → Except String (List Issue))
    (t : Table) (profile_rows : List ProfileRow) : Except String (List Issue) :=
  let pk := pkIssuesOf profile_rows
  let dup := dupIssuesOf t
  let high := highIssuesOf profile_rows
  let mixed := mixedIssuesOfScan mixedCheck t
  match perColScan emailCheck (columnsOf t) with
  | Except.error e => Except.error e
  | Except.ok emailIssues =>
    match perColScan dateCheck (columnsOf t) with
    | Except.error e => Except.error e
    | Except.ok dateIssues =>
      match perColScan numericCheck (columnsOf t) with
      | Except.error e => Except.error e
      | Except.ok numericIssues =>
        Except.ok (pk ++ dup ++ high ++ mixed ++ emailIssues ++ dateIssues ++ numericIssues)

/-- The duplicate-row total computed by the report assembler in src/app.py
(`int(df.duplicated().sum())`, line 91). -/
def duplicate_rows_total_app (t : Table) : ℕ := (duplicatedMask t.rows).count true

/-- The missing-cell total of the report (`int(df.isna().sum().sum())`). -/
def missing_cells_total_app (t : Table) : ℕ :=
  (t.rows.map (fun r => r.countP (fun c => c.isNone))).sum

/-- The report structure assembled in src/app.py: dataset counts, profile
rows and issues. -/
structure Report where
  rows : ℕ
  columns : ℕ
  missing_cells_total : ℕ
  duplicate_rows_total : ℕ
  profile : List ProfileRow
  issues : List Issue
deriving DecidableEq

/-- The full inspection pipeline run in src/app.py: profile the table, run
`detect_issues` on the table plus profile rows, and assemble the report.
`entropy` models the ambient nondeterminism available to the process (wall
clock, OS entropy); the code never reads it, because every sampling call
passes the literal `random_state=42`. -/
def runPipeline (entropy : ℕ) (t : Table) : Report :=
  let _ := entropy
  let profile_rows := build_column_profile t
  let issues := detect_issues t profile_rows
  { rows := t.rows.length
    columns := t.names.length
    missing_cells_total := missing_cells_total_app t
    duplicate_rows_total := duplicate_rows_total_app t
    profile := profile_rows
    issues := issues }

/-- Quote a string for the JSON rendering (a deterministic model of
`json.dumps`; escaping is not modelled, only determinism matters). -/
def jstr (s : String) : String := "\"" ++ s ++ "\""

/-- JSON rendering of a possibly-NaN number (`json.dumps` prints NaN). -/
def jsonOfOptQ : Option ℚ → String
  | none => "NaN"
  | some x => showQ x

/-- JSON rendering of the min/max field (the source initialises it to `""`). -/
def jsonOfOptVal : Option Val → String
  | none => jstr ""
  | some v => jstr (valToString v)

/-- JSON rendering of one profile row. -/
def jsonOfRow (r : ProfileRow) : String :=
  "\x7b" ++ jstr "column" ++ ": " ++ jstr r.column ++ ", " ++
    jstr "dtype" ++ ": " ++ jstr r.dtype ++ ", " ++
    jstr "null_%" ++ ": " ++ jsonOfOptQ r.nullPct ++ ", " ++
    jstr "unique_values" ++ ": " ++ toString r.unique_values ++ ", " ++
    jstr "cardinality" ++ ": " ++ showQ r.cardinality ++ ", " ++
    jstr "min" ++ ": " ++ jsonOfOptVal r.min ++ ", " ++
    jstr "max" ++ ": " ++ jsonOfOptVal r.max ++ "\x7d"

/-- JSON rendering of one issue. -/
def jsonOfIssue (i : Issue) : String :=
  "\x7b" ++ jstr "severity" ++ ": " ++ jstr i.severity ++ ", " ++
    jstr "title" ++ ": " ++ jstr i.title ++ ", " ++
    jstr "details" ++ ": " ++ jstr i.details ++ ", " ++
    jstr "suggestion" ++ ": " ++ jstr i.suggestion ++ "\x7d"

/-- Deterministic JSON rendering of the whole report (models
`json.dumps(report, indent=2, default=str)` up to whitespace). -/
def serializeReport (rep : Report) : String :=
  "\x7b" ++ jstr "dataset" ++ ": \x7b" ++
    jstr "rows" ++ ": " ++ toString rep.rows ++ ", " ++
    jstr "columns" ++ ": " ++ toString rep.columns ++ ", " ++
    jstr "missing_cells_total" ++ ": " ++ toString rep.missing_cells_total ++ ", " ++
    jstr "duplicate_rows_total" ++ ": " ++ toString rep.duplicate_rows_total ++
    "\x7d, " ++ jstr "profile" ++ ": [" ++
    String.intercalate ", " (rep.profile.map jsonOfRow) ++ "], " ++
    jstr "issues" ++ ": [" ++
    String.intercalate ", " (rep.issues.map jsonOfIssue) ++ "]\x7d"

/-- Concrete table for claim C1: one object column holding the upper-case
token "NA". -/
def c1Table : Table := ⟨["c"], [Dtype.object], [[some (Val.vStr "NA")]]⟩

/-- Concrete table for the C1 witness: one object column holding a padded
lower-case na token. -/
def c1wTable : Table := ⟨["c"], [Dtype.object], [[some (Val.vStr "  n/a ")]]⟩

/-- Concrete column for claim C2: 201 non-null values, all integers except a
single string at index 41 — exactly the position the seeded 200-value sample
omits. -/
def c2Col : List Cell :=
  List.replicate 41 (some (Val.vInt 0)) ++ [some (Val.vStr "x")] ++
    List.replicate 159 (some (Val.vInt 0))

/-- Concrete table for claim C3: a single column whose name the email
heuristic matches. -/
def c3Table : Table := ⟨["email"], [Dtype.object], [[some (Val.vStr "x")]]⟩

/-- A per-column email computation that raises on the `email` column,
modelling a Python exception inside the detector loop (for example the
`AttributeError` a duplicated column name provokes on `df[col].str`). -/
def failingEmailCheck : String × Dtype × List Cell → Except String (List Issue) :=
  fun c => if c.1 = "email" then Except.error "AttributeError" else Except.ok (emailColBody c)

/-- Concrete cells for the C4 witness: two rows, one null. -/
def c4Cells : List Cell := [some (Val.vInt 1), none]

/-- Concrete table for claim C5: two rows that differ only by trailing
whitespace, so they are not exact duplicates but become equal after the
cleaning steps. -/
def c5Table : Table := ⟨["c"], [Dtype.object], [[some (Val.vStr "a")], [some (Val.vStr "a ")]]⟩

/-- Concrete table for the C5 witness: a single numeric column. -/
def c5wTable : Table := ⟨["n"], [Dtype.int64], [[some (Val.vInt 3)]]⟩

/-- Concrete table for the C7 witness: two identical rows. -/
def c7Table : Table := ⟨["c"], [Dtype.int64], [[some (Val.vInt 1)], [some (Val.vInt 1)]]⟩

/-- Concrete cells for claim C9: 99 non-null values with 97 distinct, so the
exact cardinality 97/99 is below 0.98 but rounds to 0.98. -/
def c9IdCells : List Cell :=
  ((List.range 97).map (fun i => some (Val.vInt i))) ++ [some (Val.vInt 0), some (Val.vInt 1)]

/-- Concrete cells for claim C9: 800 nulls among 4001 rows, an exact null
rate just below 20% that rounds to 20.0. -/
def c9NullCells : List Cell :=
  List.replicate 800 none ++ List.replicate 3201 (some (Val.vInt 1))

/-! Shared lemmas about the embedded primitives. -/

theorem dropWs_cons_pos (a : Char) (as : List Char) (h : wsChar a = true) :
    dropWs (a :: as) = dropWs as := by
  rw [dropWs, List.dropWhile_cons, if_pos (by simp [h])]
  rfl

theorem dropWs_cons_neg (a : Char) (as : List Char) (h : wsChar a = false) :
    dropWs (a :: as) = a :: as := by
  rw [dropWs, List.dropWhile_cons, if_neg (by simp [h])]

theorem dropWs_nil : dropWs [] = [] := rfl

theorem dropWs_head_not (l : List Char) (c : Char) (rest : List Char)
    (h : dropWs l = c :: rest) : wsChar c = false := by
  induction l with
  | nil => cases h
  | cons a as ih =>
    by_cases hpa : wsChar a = true
    · rw [dropWs_cons_pos a as hpa] at h
      exact ih h
    · rw [dropWs_cons_neg a as (by simpa using hpa)] at h
      cases h
      simpa using hpa

theorem dropWs_self_of_head (l : List Char)
    (h : ∀ c, l.head? = some c → wsChar c = false) : dropWs l = l := by
  cases l with
  | nil => rfl
  | cons a as => exact dropWs_cons_neg a as (h a rfl)

theorem dropWs_idem (l : List Char) : dropWs (dropWs l) = dropWs l := by
  apply dropWs_self_of_head
  intro c hc
  cases hdrop : dropWs l with
  | nil => rw [hdrop] at hc; cases hc
  | cons b bs =>
    rw [hdrop] at hc
    simp at hc
    subst hc
    exact dropWs_head_not l b bs hdrop

theorem getLast?_dropWs (l : List Char) (h : dropWs l ≠ []) :
    (dropWs l).getLast? = l.getLast? := by
  induction l with
  | nil => exact absurd rfl h
  | cons a as ih =>
    by_cases hpa : wsChar a = true
    · rw [dropWs_cons_pos a as hpa] at h ⊢
      rw [ih h]
      cases as with
      | nil => exact absurd rfl h
      | cons b bs => rw [List.getLast?_cons_cons]
    · rw [dropWs_cons_neg a as (by simpa using hpa)]

theorem dropWs_append_ws (w l : List Char) (hw : ∀ c ∈ w, wsChar c = true) :
    dropWs (w ++ l) = dropWs l := by
  induction w with
  | nil => simp
  | cons c cs ih =>
    rw [List.cons_append, dropWs_cons_pos c (cs ++ l) (hw c (List.mem_cons_self c cs))]
    exact ih (fun x hx => hw x (List.mem_cons_of_mem c hx))

theorem dropWs_append_of_empty (a b : List Char) (h : dropWs a = []) :
    dropWs (a ++ b) = dropWs b := by
  induction a with
  | nil => simp
  | cons x xs ih =>
    by_cases hpx : wsChar x = true
    · rw [dropWs_cons_pos x xs hpx] at h
      rw [List.cons_append, dropWs_cons_pos x (xs ++ b) hpx]
      exact ih h
    · rw [dropWs_cons_neg x xs (by simpa using hpx)] at h
      cases h

theorem dropWs_append_of_cons (a b : List Char) (c : Char) (rest : List Char)
    (h : dropWs a = c :: rest) : dropWs (a ++ b) = c :: (rest ++ b) := by
  induction a with
  | nil => cases h
  | cons x xs ih =>
    by_cases hpx : wsChar x = true
    · rw [dropWs_cons_pos x xs hpx] at h
      rw [List.cons_append, dropWs_cons_pos x (xs ++ b) hpx]
      exact ih h
    · rw [dropWs_cons_neg x xs (by simpa using hpx)] at h
      rw [List.cons_append, dropWs_cons_neg x (xs ++ b) (by simpa using hpx)]
      cases h
      rfl

theorem stripChars_nil : stripChars [] = [] := rfl

theorem stripChars_idem (l : List Char) : stripChars (stripChars l) = stripChars l := by
  cases hcr : dropWs l.reverse with
  | nil =>
    have h0 : stripChars l = [] := by
      show dropWs (dropWs l.reverse).reverse = []
      rw [hcr]
      rfl
    rw [h0]
    exact stripChars_nil
  | cons c rest =>
    have hcws : wsChar c = false := dropWs_head_not l.reverse c rest hcr
    have hR : stripChars l = dropWs (dropWs l.reverse).reverse := rfl
    have hnoop : dropWs (stripChars l).reverse = (stripChars l).reverse := by
      apply dropWs_self_of_head
      intro d hd
      by_cases hRnil : stripChars l = []
      · rw [hRnil] at hd; cases hd
      · have h1 : (stripChars l).reverse.head? = (stripChars l).getLast? :=
          List.head?_reverse (stripChars l)
        have h2 : (stripChars l).getLast? = (dropWs l.reverse).reverse.getLast? :=
          getLast?_dropWs (dropWs l.reverse).reverse (by rw [← hR]; exact hRnil)
        have h3 : (dropWs l.reverse).reverse.getLast? = (dropWs l.reverse).head? :=
          List.getLast?_reverse (dropWs l.reverse)
        rw [h1, h2, h3, hcr] at hd
        simp at hd
        subst hd
        exact hcws
    show dropWs (dropWs (stripChars l).reverse).reverse = stripChars l
    rw [hnoop, List.reverse_reverse, hR, dropWs_idem]

theorem pyStrip_idem (s : String) : pyStrip (pyStrip s) = pyStrip s := by
  show (⟨stripChars (⟨stripChars s.data⟩ : String).data⟩ : String) = ⟨stripChars s.data⟩
  rw [show (⟨stripChars s.data⟩ : String).data = stripChars s.data from rfl, stripChars_idem]

theorem stripChars_ws_right (l w : List Char) (hw : ∀ c ∈ w, wsChar c = true) :
    stripChars (l ++ w) = stripChars l := by
  show dropWs ((dropWs (l ++ w).reverse).reverse) = stripChars l
  rw [List.reverse_append,
    dropWs_append_ws w.reverse l.reverse (fun c hc => hw c (List.mem_reverse.mp hc))]
  rfl

theorem stripChars_ws_left (w l : List Char) (hw : ∀ c ∈ w, wsChar c = true) :
    stripChars (w ++ l) = stripChars l := by
  show dropWs ((dropWs (w ++ l).reverse).reverse) = stripChars l
  rw [List.reverse_append]
  cases hcr : dropWs l.reverse with
  | nil =>
    rw [dropWs_append_of_empty l.reverse w.reverse hcr]
    have h2 : dropWs w.reverse = [] := by
      cases h : dropWs w.reverse with
      | nil => rfl
      | cons c rest =>
        have hnot := dropWs_head_not w.reverse c rest h
        have hc : wsChar c = true := by
          apply hw
          apply List.mem_reverse.mp
          have hsub : c ∈ dropWs w.reverse := by rw [h]; exact List.mem_cons_self c rest
          exact List.dropWhile_subset _ hsub
        rw [hnot] at hc
        cases hc
    rw [h2]
    show dropWs [] = stripChars l
    rw [dropWs_nil, show stripChars l = dropWs (dropWs l.reverse).reverse from rfl, hcr]
    rfl
  | cons c rest =>
    rw [dropWs_append_of_cons l.reverse w.reverse c rest hcr]
    rw [show (c :: (rest ++ w.reverse)).reverse = (w.reverse.reverse ++ (c :: rest).reverse) by
      simp]
    rw [List.reverse_reverse]
    rw [dropWs_append_ws w ((c :: rest).reverse) hw]
    show dropWs (c :: rest).reverse = stripChars l
    rw [show stripChars l = dropWs (dropWs l.reverse).reverse from rfl, hcr]

theorem pyStrip_pad (s : String) : pyStrip ("  " ++ s ++ " ") = pyStrip s := by
  show (⟨stripChars ("  " ++ s ++ " ").data⟩ : String) = ⟨stripChars s.data⟩
  have hdata : ("  " ++ s ++ " ").data = [' ', ' '] ++ s.data ++ [' '] := by
    rw [String.data_append, String.data_append]
  rw [hdata, List.append_assoc,
    stripChars_ws_left [' ', ' '] (s.data ++ [' ']) (by intro c hc; simp at hc; subst hc; rfl),
    stripChars_ws_right s.data [' '] (by intro c hc; simp at hc; subst hc; rfl)]

theorem dropDupAux_length_le (rows : List (List Cell)) :
    ∀ seen, (dropDupAux seen rows).length ≤ rows.length := by
  induction rows with
  | nil => intro seen; simp [dropDupAux]
  | cons r rs ih =>
    intro seen
    by_cases h : r ∈ seen
    · rw [dropDupAux, if_pos h]
      exact le_trans (ih seen) (Nat.le_succ _)
    · rw [dropDupAux, if_neg h]
      simpa using ih (r :: seen)

theorem dropDupAux_length_iff (rows : List (List Cell)) :
    ∀ seen, (dropDupAux seen rows).length = rows.length ↔
      (duplicatedAux seen rows).count true = 0 := by
  induction rows with
  | nil => intro seen; simp [dropDupAux, duplicatedAux]
  | cons r rs ih =>
    intro seen
    by_cases h : r ∈ seen
    · rw [dropDupAux, if_pos h, duplicatedAux]
      constructor
      · intro hlen
        exact absurd hlen (by
          have := dropDupAux_length_le rs seen
          simp only [List.length_cons]
          omega)
      · intro hcount
        rw [List.count_cons] at hcount
        simp [h] at hcount
    · rw [dropDupAux, if_neg h, duplicatedAux]
      rw [List.length_cons, List.length_cons, List.count_cons]
      simp only [h, decide_False]
      constructor
      · intro hlen
        have := (ih (r :: seen)).mp (by omega)
        simp [this]
      · intro hcount
        simp at hcount
        have := (ih (r :: seen)).mpr hcount
        omega

theorem mem_dropDupAux (rows : List (List Cell)) :
    ∀ seen x, x ∈ dropDupAux seen rows → x ∈ rows := by
  induction rows with
  | nil => intro seen x h; simp [dropDupAux] at h
  | cons r rs ih =>
    intro seen x h
    by_cases hm : r ∈ seen
    · rw [dropDupAux, if_pos hm] at h
      exact List.mem_cons_of_mem r (ih seen x h)
    · rw [dropDupAux, if_neg hm] at h
      rcases List.mem_cons.mp h with h1 | h2
      · simp [h1]
      · exact List.mem_cons_of_mem r (ih (r :: seen) x h2)

theorem dropDupAux_notin_seen (rows : List (List Cell)) :
    ∀ seen x, x ∈ dropDupAux seen rows → x ∉ seen := by
  induction rows with
  | nil => intro seen x h; simp [dropDupAux] at h
  | cons r rs ih =>
    intro seen x h
    by_cases hm : r ∈ seen
    · rw [dropDupAux, if_pos hm] at h
      exact ih seen x h
    · rw [dropDupAux, if_neg hm] at h
      rcases List.mem_cons.mp h with h1 | h2
      · subst h1; exact hm
      · intro hx
        exact ih (r :: seen) x h2 (List.mem_cons_of_mem r hx)

theorem dropDupAux_nodup (rows : List (List Cell)) :
    ∀ seen, (dropDupAux seen rows).Nodup := by
  induction rows with
  | nil => intro seen; simp [dropDupAux]
  | cons r rs ih =>
    intro seen
    by_cases hm : r ∈ seen
    · rw [dropDupAux, if_pos hm]
      exact ih seen
    · rw [dropDupAux, if_neg hm]
      refine List.nodup_cons.mpr ⟨?_, ih (r :: seen)⟩
      intro hr
      exact dropDupAux_notin_seen rs (r :: seen) r hr (List.mem_cons_self r seen)

theorem dropDupAux_eq_self (rows : List (List Cell)) :
    ∀ seen, rows.Nodup → (∀ x ∈ rows, x ∉ seen) → dropDupAux seen rows = rows := by
  induction rows with
  | nil => intro seen _ _; rfl
  | cons r rs ih =>
    intro seen hnd hdis
    have hm : r ∉ seen := hdis r (List.mem_cons_self r rs)
    rw [dropDupAux, if_neg hm]
    congr 1
    apply ih (r :: seen) (List.nodup_cons.mp hnd).2
    intro x hx
    rw [List.mem_cons]
    push_neg
    exact ⟨fun he => (List.nodup_cons.mp hnd).1 (he ▸ hx), hdis x (List.mem_cons_of_mem r hx)⟩

theorem dropDupRows_idem (rows : List (List Cell)) :
    dropDupRows (dropDupRows rows) = dropDupRows rows :=
  dropDupAux_eq_self (dropDupAux [] rows) [] (dropDupAux_nodup rows [])
    (fun x _ => List.not_mem_nil x)

theorem map_eq_self_of_mem {f : α → α} :
    ∀ (l : List α), (∀ x ∈ l, f x = x) → l.map f = l := by
  intro l
  induction l with
  | nil => intro _; rfl
  | cons a as ih =>
    intro h
    rw [List.map_cons, h a (List.mem_cons_self a as),
      ih (fun x hx => h x (List.mem_cons_of_mem a hx))]

theorem mapExt {f g : α → β} (l : List α) (h : ∀ x, f x = g x) : l.map f = l.map g := by
  induction l with
  | nil => rfl
  | cons a as ih => rw [List.map_cons, List.map_cons, h a, ih]

theorem cleanCell_idem (c : Cell) : cleanCell (cleanCell c) = cleanCell c := by
  cases c with
  | none => rfl
  | some v =>
    show cleanCell (if pyStrip (valToString v) ∈ naTokens then none
      else some (Val.vStr (pyStrip (valToString v)))) = _
    by_cases h : pyStrip (valToString v) ∈ naTokens
    · rw [if_pos h]
      show none = cleanCell (some v)
      show none = (if pyStrip (valToString v) ∈ naTokens then none
        else some (Val.vStr (pyStrip (valToString v))))
      rw [if_pos h]
    · rw [if_neg h]
      show (if pyStrip (valToString (Val.vStr (pyStrip (valToString v)))) ∈ naTokens then none
        else some (Val.vStr (pyStrip (valToString (Val.vStr (pyStrip (valToString v))))))) = _
      rw [show valToString (Val.vStr (pyStrip (valToString v))) = pyStrip (valToString v) from rfl,
        pyStrip_idem, if_neg h]
      show _ = (if pyStrip (valToString v) ∈ naTokens then none
        else some (Val.vStr (pyStrip (valToString v))))
      rw [if_neg h]

theorem isTextLike_cleanDtype (d : Dtype) : isTextLike (cleanDtype d) = isTextLike d := by
  cases d <;> rfl

theorem cleanDtype_idem (d : Dtype) : cleanDtype (cleanDtype d) = cleanDtype d := by
  cases d <;> rfl

theorem cleanCells_idem_conv :
    ∀ (dts : List Dtype) (cs : List Cell),
      cleanCells (dts.map cleanDtype) (cleanCells dts cs) = cleanCells dts cs := by
  intro dts cs
  induction cs generalizing dts with
  | nil => cases dts <;> rfl
  | cons c rest ih =>
    cases dts with
    | nil =>
      show cleanCells [] (cleanCell c :: cleanCells [] rest) = _
      rw [show cleanCells [] (cleanCell c :: cleanCells [] rest) =
        cleanCell (cleanCell c) :: cleanCells [] (cleanCells [] rest) from rfl]
      rw [cleanCell_idem]
      have := ih []
      simp only [List.map_nil] at this
      rw [this]
      rfl
    | cons d ds =>
      rw [List.map_cons]
      show (if isTextLike (cleanDtype d) then
          cleanCell (if isTextLike d then cleanCell c else c)
        else (if isTextLike d then cleanCell c else c)) ::
          cleanCells (ds.map cleanDtype) (cleanCells ds rest) =
        (if isTextLike d then cleanCell c else c) :: cleanCells ds rest
      rw [isTextLike_cleanDtype, ih ds]
      by_cases h : isTextLike d = true
      · simp only [h, if_true, cleanCell_idem]
      · simp only [h, if_false, Bool.false_eq_true]

theorem cleanCells_length (dts : List Dtype) (cs : List Cell) :
    (cleanCells dts cs).length = cs.length := by
  induction cs generalizing dts with
  | nil => cases dts <;> rfl
  | cons c rest ih =>
    cases dts with
    | nil => simpa [cleanCells] using ih []
    | cons d ds => simpa [cleanCells] using ih ds

theorem cleanCells_nil_right (dts : List Dtype) : cleanCells dts [] = [] := by
  cases dts <;> rfl

theorem map_getD_cleanCells (dts : List Dtype) (rows : List (List Cell)) :
    ∀ i, (rows.map (cleanCells dts)).getD i [] = cleanCells dts (rows.getD i []) := by
  induction rows with
  | nil =>
    intro i
    show ([] : List (List Cell)).getD i [] = cleanCells dts (([] : List (List Cell)).getD i [])
    simp [List.getD, cleanCells_nil_right]
  | cons r rs ih =>
    intro i
    cases i with
    | zero => simp [List.getD]
    | succ n => simpa [List.getD] using ih n

theorem cleanCells_getD (dts : List Dtype) (cs : List Cell) :
    ∀ j, (cleanCells dts cs).getD j none =
      (if isTextLike (dts.getD j Dtype.object) then cleanCell (cs.getD j none)
        else cs.getD j none) := by
  induction cs generalizing dts with
  | nil =>
    intro j
    rw [cleanCells_nil_right]
    cases h : isTextLike (dts.getD j Dtype.object) <;> simp [List.getD, h, cleanCell]
  | cons c cs' ih =>
    intro j
    cases dts with
    | nil =>
      cases j with
      | zero => simp [cleanCells, List.getD, isTextLike]
      | succ n =>
        show (cleanCells [] cs').getD n none = _
        rw [ih []]
        simp [List.getD]
    | cons d ds =>
      cases j with
      | zero => simp [cleanCells, List.getD]
      | succ n =>
        show (cleanCells ds cs').getD n none = _
        rw [ih ds]
        simp [List.getD]

/-- C6: for every table T, clean with drop_exact_duplicates set is idempotent
after the first application: clean(clean(T, true), true) = clean(T, true).
After the first pass every text cell is already stripped and na-replaced
(both operations are idempotent), text-like dtypes are already `string`, and
the deduplicated rows contain no duplicate to remove. -/
theorem c6_clean_idempotent (t : Table) :
    safe_clean_dataframe (safe_clean_dataframe t true) true = safe_clean_dataframe t true := by
  have hL : safe_clean_dataframe (safe_clean_dataframe t true) true =
      ⟨(t.names.map pyStrip).map pyStrip, (t.dtypes.map cleanDtype).map cleanDtype,
        dropDupRows ((dropDupRows (t.rows.map (cleanCells t.dtypes))).map
          (cleanCells (t.dtypes.map cleanDtype)))⟩ := rfl
  have hRr : safe_clean_dataframe t true =
      ⟨t.names.map pyStrip, t.dtypes.map cleanDtype,
        dropDupRows (t.rows.map (cleanCells t.dtypes))⟩ := rfl
  rw [hL, hRr]
  congr 1
  · rw [List.map_map]
    exact mapExt _ (fun s => pyStrip_idem s)
  · rw [List.map_map]
    exact mapExt _ (fun d => cleanDtype_idem d)
  · have hmapid : (dropDupRows (t.rows.map (cleanCells t.dtypes))).map
        (cleanCells (t.dtypes.map cleanDtype)) =
        dropDupRows (t.rows.map (cleanCells t.dtypes)) := by
      apply map_eq_self_of_mem
      intro x hx
      have hxbase : x ∈ t.rows.map (cleanCells t.dtypes) :=
        mem_dropDupAux (t.rows.map (cleanCells t.dtypes)) [] x hx
      obtain ⟨r, _, hr⟩ := List.mem_map.mp hxbase
      rw [← hr]
      exact cleanCells_idem_conv t.dtypes r
    rw [hmapid, dropDupRows_idem]

/-- C1 counterexample: `safe_clean_dataframe` does not case-fold before the
na replacement — the upper-case token "NA" in a text column survives the
clean unchanged instead of becoming null, contradicting the claim that
upper- or mixed-case variants are also replaced. -/
theorem c1_counterexample :
    ((safe_clean_dataframe c1Table false).rows.getD 0 []).getD 0 none =
      some (Val.vStr "NA") := by decide

/-- C1 (amended): in every text-typed (object or string) column position,
clean replaces a non-null cell with null exactly when its value — after
conversion to string and trimming, with no case-folding — equals one of
`{"", "na", "n/a", "null", "none"}` verbatim; otherwise the cell becomes its
trimmed string form.  Case variants such as "NA" are not replaced. -/
theorem c1_clean_na_replacement (t : Table) (i j : ℕ)
    (h : isTextLike (t.dtypes.getD j Dtype.object) = true) :
    ((safe_clean_dataframe t false).rows.getD i []).getD j none =
      (match (t.rows.getD i []).getD j none with
       | none => none
       | some v =>
         if pyStrip (valToString v) ∈ naTokens then none
         else some (Val.vStr (pyStrip (valToString v)))) := by
  have hrows : (safe_clean_dataframe t false).rows = t.rows.map (cleanCells t.dtypes) := rfl
  rw [hrows, map_getD_cleanCells, cleanCells_getD, if_pos h]
  cases (t.rows.getD i []).getD j none with
  | none => rfl
  | some v => rfl

/-- C1 witness: the padded lower-case token "  n/a " is replaced by null in
an object column. -/
theorem c1_witness :
    ((safe_clean_dataframe c1wTable false).rows.getD 0 []).getD 0 none = none := by
  rw [c1_clean_na_replacement c1wTable 0 0 (by decide)]
  decide

/-- C5 counterexample: `c5Table` has no exact duplicate rows, yet
`clean(T, true)` shrinks it — dropping happens after trimming, so two rows
differing only in surrounding whitespace merge.  This refutes the claimed
equivalence "row count preserved iff T contained no exact duplicate rows". -/
theorem c5_counterexample :
    dup_count_rules c5Table = 0 ∧
      (safe_clean_dataframe c5Table true).rows.length ≠ c5Table.rows.length := by
  constructor
  · decide
  · decide

/-- C5 (amended): clean(T, false) preserves row and column counts exactly;
clean(T, true) never increases the row count, and preserves it exactly when
the cleaned (trimmed and na-replaced) table has no exact duplicate rows —
not when the original table has none; cells of non-text columns are never
altered. -/
theorem c5_clean_counts (t : Table) :
    (safe_clean_dataframe t false).rows.length = t.rows.length ∧
    (safe_clean_dataframe t false).names.length = t.names.length ∧
    (safe_clean_dataframe t true).names.length = t.names.length ∧
    (safe_clean_dataframe t true).rows.length ≤ t.rows.length ∧
    ((safe_clean_dataframe t true).rows.length = t.rows.length ↔
      dup_count_rules (safe_clean_dataframe t false) = 0) ∧
    (∀ (j : ℕ) (r : List Cell), isTextLike (t.dtypes.getD j Dtype.object) = false →
      (cleanCells t.dtypes r).getD j none = r.getD j none) := by
  refine ⟨?_, ?_, ?_, ?_, ?_, ?_⟩
  · show (t.rows.map (cleanCells t.dtypes)).length = t.rows.length
    rw [List.length_map]
  · show (t.names.map pyStrip).length = t.names.length
    rw [List.length_map]
  · show (t.names.map pyStrip).length = t.names.length
    rw [List.length_map]
  · show (dropDupRows (t.rows.map (cleanCells t.dtypes))).length ≤ t.rows.length
    calc (dropDupRows (t.rows.map (cleanCells t.dtypes))).length
        ≤ (t.rows.map (cleanCells t.dtypes)).length :=
          dropDupAux_length_le (t.rows.map (cleanCells t.dtypes)) []
      _ = t.rows.length := List.length_map _ _
  · show (dropDupRows (t.rows.map (cleanCells t.dtypes))).length = t.rows.length ↔
      (duplicatedMask (t.rows.map (cleanCells t.dtypes))).count true = 0
    rw [show t.rows.length = (t.rows.map (cleanCells t.dtypes)).length from
      (List.length_map _ _).symm]
    exact dropDupAux_length_iff (t.rows.map (cleanCells t.dtypes)) []
  · intro j r h
    rw [cleanCells_getD, if_neg (by rw [h]; exact Bool.false_ne_true)]

/-- C5 witness: the non-text preservation clause applied to a concrete
integer column. -/
theorem c5_witness :
    (cleanCells c5wTable.dtypes [some (Val.vInt 3)]).getD 0 none =
      ([some (Val.vInt 3)] : List Cell).getD 0 none :=
  (c5_clean_counts c5wTable).2.2.2.2.2 0 [some (Val.vInt 3)] (by decide)

/-- C7: the duplicate-row count the duplicate-rows detector reports equals
the `duplicate_rows_total` of the report assembler — both sites compute
`int(df.duplicated().sum())` over the same table — and the emitted issue
text carries exactly that shared count. -/
theorem c7_dup_counts_agree (t : Table) :
    dup_count_rules t = duplicate_rows_total_app t ∧
      (0 < dup_count_rules t →
        dupIssuesOf t =
          [{ severity := "warning"
             title := "Duplicate rows detected"
             details := "Found " ++ toString (duplicate_rows_total_app t) ++ " exact duplicate rows."
             suggestion := "Inspect duplicates; deduplicate or define a reliable key strategy." }]) := by
  refine ⟨rfl, fun h => ?_⟩
  show (if 0 < dup_count_rules t then _ else []) = _
  rw [if_pos h]
  rfl

/-- C7 witness: on a table with one duplicated row both counts are 1 and the
issue reports it. -/
theorem c7_witness :
    dupIssuesOf c7Table =
      [{ severity := "warning"
         title := "Duplicate rows detected"
         details := "Found 1 exact duplicate rows."
         suggestion := "Inspect duplicates; deduplicate or define a reliable key strategy." }] := by
  rw [(c7_dup_counts_agree c7Table).2 (by decide)]
  decide

/-- C8: running the full pipeline (profile, detect_issues, report assembly)
twice on the identical table yields identical reports and byte-identical
serialized JSON, whatever ambient entropy each run observes: every sampling
site uses the literal fixed seed 42 and the pipeline never reads the
entropy. -/
theorem c8_pipeline_deterministic (entropy1 entropy2 : ℕ) (t : Table) :
    runPipeline entropy1 t = runPipeline entropy2 t ∧
      serializeReport (runPipeline entropy1 t) = serializeReport (runPipeline entropy2 t) :=
  ⟨rfl, rfl⟩

theorem perColScan_ok (f : String × Dtype × List Cell → List Issue) :
    ∀ (l : List (String × Dtype × List Cell)),
      perColScan (fun c => Except.ok (f c)) l = Except.ok (l.flatMap f) := by
  intro l
  induction l with
  | nil => rfl
  | cons c rest ih => simp [perColScan, ih, List.flatMap_cons]

/-- C3 (amended): only the mixed-types loop of `detect_issues` survives a
per-column failure — with every email/date/numeric per-column computation
total, `detect_issues_flow` returns normally whatever the mixed-types
computation does (failing columns are simply missing from the mixed-columns
issue), whereas a failure inside the unguarded email/date/numeric loops
aborts the run (see the counterexample). -/
theorem c3_only_mixed_guarded
    (mixedCheck : List Cell → Except String Bool)
    (emailBody dateBody numericBody : String × Dtype × List Cell → List Issue)
    (t : Table) (profile_rows : List ProfileRow) :
    detect_issues_flow mixedCheck (fun c => Except.ok (emailBody c))
        (fun c => Except.ok (dateBody c)) (fun c => Except.ok (numericBody c)) t profile_rows =
      Except.ok (pkIssuesOf profile_rows ++ dupIssuesOf t ++ highIssuesOf profile_rows ++
        mixedIssuesOfScan mixedCheck t ++ (columnsOf t).flatMap emailBody ++
        (columnsOf t).flatMap dateBody ++ (columnsOf t).flatMap numericBody) := by
  simp [detect_issues_flow, perColScan_ok]

/-- C3 counterexample: a failing per-column computation inside the email
detector loop (no try/except in the source) aborts `detect_issues` instead
of skipping the column, refuting the claim for every detector. -/
theorem c3_counterexample :
    detect_issues_flow (fun cs => Except.ok (infer_mixed_types cs 200)) failingEmailCheck
        (fun c => Except.ok (dateColBody c)) (fun c => Except.ok (numericColBody c))
        c3Table [] = Except.error "AttributeError" := rfl

theorem sampleSeeded_length (seed n : ℕ) (xs : List α) :
    (sampleSeeded seed n xs).length = min n xs.length := by
  have hk : seed % max xs.length 1 < max xs.length 1 := Nat.mod_lt _ (by omega)
  simp only [sampleSeeded, List.length_take, List.length_append, List.length_drop]
  omega

/-- C2 (amended): every detector samples through the same seeded algorithm
(`sampleSeeded` with the literal seed 42, wrapped as `detectorSample`), but
the caps differ: `detect_issues` invokes the mixed-types detector with its
default cap of 200 sampled non-null values, while the email, date and
numeric-as-text detectors cap at 2,000. -/
theorem c2_sampling_caps :
    (∀ (cells : List Cell),
      infer_mixed_types cells 200 =
        (if (nonNullVals cells).isEmpty then false
          else decide (1 < countDistinct
            ((detectorSample 200 (nonNullVals cells)).map kindName)))) ∧
    (∀ (xs : List String), detectorSample 2000 xs = sampleSeeded 42 (min 2000 xs.length) xs) ∧
    (∀ (vs : List Val), detectorSample 200 vs = sampleSeeded 42 (min 200 vs.length) vs) ∧
    (∀ (vs : List Val), (detectorSample 200 vs).length = min 200 vs.length) ∧
    (∀ (xs : List String), (detectorSample 2000 xs).length = min 2000 xs.length) := by
  refine ⟨fun cells => rfl, fun xs => rfl, fun vs => rfl, fun vs => ?_, fun xs => ?_⟩
  · rw [detectorSample, sampleSeeded_length]
    omega
  · rw [detectorSample, sampleSeeded_length]
    omega

set_option maxRecDepth 40000 in
/-- C2 counterexample: a 201-value column whose only string sits exactly at
the one position the seeded 200-value sample skips — `infer_mixed_types`
(as `detect_issues` calls it) misses the mixed types, while a 2,000-value
cap would see both kinds; the mixed-types detector therefore does not
sample up to 2,000 values. -/
theorem c2_counterexample :
    infer_mixed_types c2Col 200 = false ∧
      1 < countDistinct ((detectorSample 2000 (nonNullVals c2Col)).map kindName) := by
  constructor
  · decide
  · decide

theorem nonNullVals_map_map (f : Val → Val) (cells : List Cell) :
    nonNullVals (cells.map (Option.map f)) = (nonNullVals cells).map f := by
  induction cells with
  | nil => rfl
  | cons c rest ih => cases c <;> simp [nonNullVals, List.filterMap_cons] at ih ⊢ <;> exact ih

/-- C10: the invalid-email detector strips surrounding whitespace before
matching — replacing every value of the column by its stripped string form
leaves the detector output unchanged, trimming is insensitive to added
surrounding whitespace, and a well-formed address surrounded by whitespace
passes the anchored regex after the strip. -/
theorem c10_email_strips_before_match (name : String) (dt : Dtype) (cells : List Cell)
    (s : String) :
    emailColBody (name, dt, cells) =
      emailColBody (name, dt, cells.map (Option.map (fun v => Val.vStr (pyStrip (valToString v))))) ∧
    emailMatch (pyStrip ("  " ++ s ++ " ")) = emailMatch (pyStrip s) ∧
    emailMatch (pyStrip "  user@mail.com ") = true := by
  refine ⟨?_, ?_, by decide⟩
  · have hnn : nonNullVals (cells.map (Option.map (fun v => Val.vStr (pyStrip (valToString v))))) =
        (nonNullVals cells).map (fun v => Val.vStr (pyStrip (valToString v))) :=
      nonNullVals_map_map _ cells
    have hs2 : ((nonNullVals cells).map (fun v => Val.vStr (pyStrip (valToString v)))).map
        (fun v => pyStrip (valToString v)) =
        (nonNullVals cells).map (fun v => pyStrip (valToString v)) := by
      rw [List.map_map]
      refine mapExt _ (fun v => ?_)
      show pyStrip (valToString (Val.vStr (pyStrip (valToString v)))) = pyStrip (valToString v)
      rw [show valToString (Val.vStr (pyStrip (valToString v))) = pyStrip (valToString v) from rfl,
        pyStrip_idem]
    simp only [emailColBody, hnn]
    cases hcase : nonNullVals cells with
    | nil => simp
    | cons a as =>
      rw [← hcase, hs2]
      have hie : (List.map (fun v => Val.vStr (pyStrip (valToString v))) (nonNullVals cells)).isEmpty
          = (nonNullVals cells).isEmpty := by
        rw [hcase]
        rfl
      rw [hie]
  · rw [pyStrip_pad]

theorem rne_nonneg (x : ℚ) (hx : 0 ≤ x) : 0 ≤ rne x := by
  have hfl : (0 : ℤ) ≤ ⌊x⌋ := Int.floor_nonneg.mpr hx
  unfold rne
  split_ifs <;> omega

theorem rne_le (x : ℚ) (n : ℤ) (hx : x ≤ (n : ℚ)) : rne x ≤ n := by
  have hfl : ⌊x⌋ ≤ n := by
    have := Int.floor_le_floor hx
    rwa [Int.floor_intCast] at this
  have hdn : ⌊x⌋ = n → x - (⌊x⌋ : ℚ) ≤ 0 := by
    intro he
    rw [he]
    linarith
  unfold rne
  split_ifs with h1 h2 h3
  · exact hfl
  · rcases lt_or_eq_of_le hfl with h | h
    · omega
    · have := hdn h
      linarith
  · exact hfl
  · rcases lt_or_eq_of_le hfl with h | h
    · omega
    · have := hdn h
      push_neg at h1
      linarith

theorem pyRound_nonneg (n : ℕ) (x : ℚ) (hx : 0 ≤ x) : 0 ≤ pyRound n x := by
  unfold pyRound
  apply div_nonneg
  · exact_mod_cast rne_nonneg _ (by positivity)
  · positivity

theorem pyRound_le_one (n : ℕ) (x : ℚ) (hx : x ≤ 1) : pyRound n x ≤ 1 := by
  unfold pyRound
  rw [div_le_one (by positivity)]
  have h1 : x * 10 ^ n ≤ ((10 ^ n : ℤ) : ℚ) := by
    push_cast
    nlinarith [pow_pos (show (0:ℚ) < 10 by norm_num) n]
  have := rne_le (x * 10 ^ n) (10 ^ n) h1
  exact_mod_cast this

theorem count_true_map_isNone (cells : List Cell) :
    (cells.map Option.isNone).count true = countNulls cells := by
  induction cells with
  | nil => rfl
  | cons c cs ih =>
    cases c <;> simp [countNulls, List.count_cons, List.countP_cons] <;>
      simpa [countNulls] using ih

theorem countDistinctAux_le (l : List α) [DecidableEq α] :
    ∀ seen, countDistinctAux seen l ≤ l.length := by
  induction l with
  | nil => intro seen; simp [countDistinctAux]
  | cons x xs ih =>
    intro seen
    by_cases h : x ∈ seen
    · rw [countDistinctAux, if_pos h]
      exact le_trans (ih seen) (Nat.le_succ _)
    · rw [countDistinctAux, if_neg h, List.length_cons]
      exact Nat.succ_le_succ (ih (x :: seen))

theorem countDistinct_nonNull_le (cells : List Cell) :
    countDistinct (nonNullVals cells) ≤ cells.length :=
  le_trans (countDistinctAux_le (nonNullVals cells) [])
    (List.length_filterMap_le id cells)

/-- C4 counterexample: on a zero-row column the null rate the profiler computes is the
NaN mean of an empty series (modelled `none`), not 0.0 — only the
cardinality is guarded to 0.0 — so the claim that both are 0.0 (and that
null_rate always lies in [0,1]) fails. -/
theorem c4_counterexample :
    nullRateOf ([] : List Cell) = none ∧
      (profileColumn "c" Dtype.object []).nullPct = none ∧
      (profileColumn "c" Dtype.object []).cardinality = 0 := by
  refine ⟨rfl, rfl, ?_⟩
  show pyRound 3 (if ([] : List Cell).length = 0 then 0 else _) = 0
  norm_num [pyRound, rne]

/-- C4 (amended): for a column of a table with at least one row, the null
rate `s.isna().mean()` is a number in [0,1] and the profile cardinality lies
in [0,1]; for a zero-row column the cardinality is 0.0 but the null rate is
NaN, not 0.0. -/
theorem c4_profile_bounds (name : String) (dt : Dtype) (cells : List Cell) :
    (0 < cells.length →
      ∃ r, nullRateOf cells = some r ∧ 0 ≤ r ∧ r ≤ 1 ∧
        0 ≤ (profileColumn name dt cells).cardinality ∧
        (profileColumn name dt cells).cardinality ≤ 1) ∧
    (cells.length = 0 →
      nullRateOf cells = none ∧ (profileColumn name dt cells).cardinality = 0) := by
  constructor
  · intro hpos
    have hlen : (cells.map Option.isNone).length = cells.length := List.length_map _ _
    have hne : ¬((cells.map Option.isNone).length = 0) := by omega
    have hcardval : (profileColumn name dt cells).cardinality =
        pyRound 3 ((countDistinct (nonNullVals cells) : ℚ) / (cells.length : ℚ)) := by
      show pyRound 3 (if cells.length = 0 then 0 else _) = _
      rw [if_neg (by omega)]
    refine ⟨((cells.map Option.isNone).count true : ℚ) / (cells.length : ℚ), ?_, ?_, ?_, ?_, ?_⟩
    · show seriesMeanB (cells.map Option.isNone) = _
      rw [seriesMeanB, if_neg hne, hlen]
    · positivity
    · rw [div_le_one (by exact_mod_cast hpos)]
      have h1 : (cells.map Option.isNone).count true ≤ cells.length := by
        rw [count_true_map_isNone]
        exact List.countP_le_length _
      exact_mod_cast h1
    · rw [hcardval]
      exact pyRound_nonneg _ _ (by positivity)
    · rw [hcardval]
      apply pyRound_le_one
      rw [div_le_one (by exact_mod_cast hpos)]
      exact_mod_cast countDistinct_nonNull_le cells
  · intro h0
    constructor
    · show seriesMeanB (cells.map Option.isNone) = none
      rw [seriesMeanB, if_pos (by rw [List.length_map]; exact h0)]
    · show pyRound 3 (if cells.length = 0 then 0 else _) = 0
      rw [if_pos h0]
      norm_num [pyRound, rne]

/-- C4 witness: the nonzero-row bounds applied at a concrete two-row column
with one null. -/
theorem c4_witness :
    ∃ r, nullRateOf c4Cells = some r ∧ 0 ≤ r ∧ r ≤ 1 ∧
      0 ≤ (profileColumn "c" Dtype.object c4Cells).cardinality ∧
      (profileColumn "c" Dtype.object c4Cells).cardinality ≤ 1 :=
  (c4_profile_bounds "c" Dtype.object c4Cells).1 (by decide)

/-- C9: the primary-key and high-missingness detectors evaluate their
thresholds on the profile fields, which `build_column_profile` stores
rounded — `null_%` to 2 decimals and cardinality to 3 decimals — so
qualification is exactly a condition on the rounded values, not on the
exact ratios. -/
theorem c9_rounded_thresholds (name : String) (dt : Dtype) (cells : List Cell)
    (h : cells.length ≠ 0) :
    (pkCond (profileColumn name dt cells) = true ↔
      (pyRound 2 (100 * ((countNulls cells : ℚ) / (cells.length : ℚ))) ≤ 1 ∧
        (98 : ℚ)/100 ≤ pyRound 3 ((countDistinct (nonNullVals cells) : ℚ) / (cells.length : ℚ)) ∧
        1 < countDistinct (nonNullVals cells))) ∧
    (highCond (profileColumn name dt cells) = true ↔
      (20 : ℚ) ≤ pyRound 2 (100 * ((countNulls cells : ℚ) / (cells.length : ℚ)))) := by
  have hlen : (cells.map Option.isNone).length = cells.length := List.length_map _ _
  have hnull : (profileColumn name dt cells).nullPct =
      some (pyRound 2 (100 * ((countNulls cells : ℚ) / (cells.length : ℚ)))) := by
    show (nullRateOf cells).map (fun r => pyRound 2 (100 * r)) = _
    rw [nullRateOf, seriesMeanB, if_neg (by rw [hlen]; exact h), hlen, count_true_map_isNone]
    rfl
  have hcard : (profileColumn name dt cells).cardinality =
      pyRound 3 ((countDistinct (nonNullVals cells) : ℚ) / (cells.length : ℚ)) := by
    show pyRound 3 (if cells.length = 0 then 0 else _) = _
    rw [if_neg h]
  have huniq : (profileColumn name dt cells).unique_values =
      countDistinct (nonNullVals cells) := rfl
  constructor
  · rw [pkCond, hnull, huniq, hcard]
    simp only [optLe, Bool.and_eq_true, decide_eq_true_eq]
    tauto
  · rw [highCond, hnull]
    simp only [optGe, decide_eq_true_eq]

set_option maxRecDepth 40000 in
/-- C9 witness: a 99-row column with 97 distinct non-null values (exact
cardinality 97/99 ≈ 0.9798, strictly below 0.98) qualifies as a primary-key
candidate because 97/99 rounds to 0.980; a 4001-row column with 800 nulls
(exact null rate 800/4001 ≈ 0.19995, strictly below 20%) triggers the
high-missingness condition because its null_% rounds to 20.0. -/
theorem c9_witness :
    pkCond (profileColumn "id" Dtype.int64 c9IdCells) = true ∧
      ((countDistinct (nonNullVals c9IdCells) : ℚ) / (c9IdCells.length : ℚ) < 98/100) ∧
      highCond (profileColumn "m" Dtype.object c9NullCells) = true ∧
      ((countNulls c9NullCells : ℚ) / (c9NullCells.length : ℚ) < 1/5) := by
  have hlen1 : c9IdCells.length = 99 := by decide
  have huniq1 : countDistinct (nonNullVals c9IdCells) = 97 := by decide
  have hnull1 : countNulls c9IdCells = 0 := by decide
  have hlen2 : c9NullCells.length = 4001 := by
    rw [c9NullCells, List.length_append, List.length_replicate, List.length_replicate]
  have hnull2 : countNulls c9NullCells = 800 := by
    rw [c9NullCells, countNulls, List.countP_append, List.countP_replicate,
      List.countP_replicate]
    norm_num
  have e1 : pyRound 2 (100 * ((0 : ℚ)/99)) = 0 := by
    norm_num [pyRound, rne]
  have e2 : pyRound 3 ((97 : ℚ)/99) = 98/100 := by
    have hf : ⌊(97 : ℚ)/99 * 10 ^ 3⌋ = 979 := by
      rw [show ((97 : ℚ)/99 * 10 ^ 3) = 97000/99 by norm_num]
      rw [Int.floor_eq_iff]
      constructor <;> norm_num
    rw [pyRound, rne, hf]
    norm_num
  have e3 : pyRound 2 (100 * ((800 : ℚ)/4001)) = 20 := by
    have hf : ⌊(100 : ℚ) * (800/4001) * 10 ^ 2⌋ = 1999 := by
      rw [show ((100 : ℚ) * (800/4001) * 10 ^ 2) = 8000000/4001 by norm_num]
      rw [Int.floor_eq_iff]
      constructor <;> norm_num
    rw [pyRound, rne, hf]
    norm_num
  refine ⟨?_, ?_, ?_, ?_⟩
  · have hiff := (c9_rounded_thresholds "id" Dtype.int64 c9IdCells (by rw [hlen1]; omega)).1
    rw [hnull1, huniq1, hlen1] at hiff
    apply hiff.mpr
    refine ⟨?_, ?_, by omega⟩
    · push_cast
      rw [e1]
      norm_num
    · push_cast
      rw [e2]
  · rw [huniq1, hlen1]
    norm_num
  · have hiff := (c9_rounded_thresholds "m" Dtype.object c9NullCells (by rw [hlen2]; omega)).2
    rw [hnull2, hlen2] at hiff
    apply hiff.mpr
    push_cast
    rw [e3]
  · rw [hnull2, hlen2]
    norm_num
